import Mathlib

/-!
Verification development for the Smoothie frame scheduler / interpolator
(`src/vendor/smoothie.ts`).  Wall-clock times (milliseconds) and sprite
attribute values are modelled as rationals; the update callback supplied by
the caller is opaque user code and is threaded through the loop functions as
an abstract function on the scene forest.
-/

/-- Mirror of `SmoothieProperties`.  In the source `size`, `scale` and
`alpha` are optional boolean fields tested only for truthiness, so an absent
field behaves exactly like `false`; they are therefore modelled as plain
booleans. -/
structure SmoothieProperties where
  position : Bool
  rotation : Bool
  size : Bool
  scale : Bool
  alpha : Bool
deriving DecidableEq, Repr

/-- The live (authoritative) attribute slots of a display object that
Smoothie reads and writes: `x`, `y`, `rotation`, `width`, `height`,
`scale.x`, `scale.y`, `alpha`. -/
@[ext]
structure LiveAttrs where
  x : ℚ
  y : ℚ
  rotation : ℚ
  width : ℚ
  height : ℚ
  scaleX : ℚ
  scaleY : ℚ
  alpha : ℚ
deriving DecidableEq, Repr

/-- One bank of shadow slots crammed onto a sprite by Smoothie
(`_previousX`, ... or `_currentX`, ...).  Each slot is `undefined` until
first written, hence `Option`. -/
structure ShadowAttrs where
  x : Option ℚ
  y : Option ℚ
  rotation : Option ℚ
  width : Option ℚ
  height : Option ℚ
  scaleX : Option ℚ
  scaleY : Option ℚ
  alpha : Option ℚ
deriving DecidableEq, Repr

/-- All shadow slots still `undefined`, the state of a freshly created
sprite. -/
def emptyShadow : ShadowAttrs := ⟨none, none, none, none, none, none, none, none⟩

mutual
/-- A scene node: live attributes, the `_previous*` bank, the `_current*`
bank, whether the object is an instance of the engine `Sprite` class (the
source gates size interpolation on `sprite instanceof this.Sprite`), and its
children. -/
inductive SpriteNode where
  | node (live : LiveAttrs) (prev cur : ShadowAttrs) (isSprite : Bool)
      (children : SpriteForest)
deriving DecidableEq
/-- A list of scene nodes (the `children` array of a container, or the
children of the stage). -/
inductive SpriteForest where
  | nil
  | cons (head : SpriteNode) (tail : SpriteForest)
deriving DecidableEq
end

/-- The interpolation formula of `render`:
`(sprite.x - sprite._previousX) * tick + sprite._previousX`, applied only
when the previous shadow value exists. -/
def lerp (tick : ℚ) (prev : Option ℚ) (v : ℚ) : ℚ :=
  match prev with
  | some p => (v - p) * tick + p
  | none => v

/-- Per-node body of `capturePreviousSpriteProperties`: for each enabled
category copy the live value into the `_previous*` slot.  (The source does
not gate the size capture on `instanceof Sprite`; only interpolate and
restore do.) -/
def capturePrev (p : SmoothieProperties) (l : LiveAttrs) (pr : ShadowAttrs) :
    ShadowAttrs where
  x := if p.position then some l.x else pr.x
  y := if p.position then some l.y else pr.y
  rotation := if p.rotation then some l.rotation else pr.rotation
  width := if p.size then some l.width else pr.width
  height := if p.size then some l.height else pr.height
  scaleX := if p.scale then some l.scaleX else pr.scaleX
  scaleY := if p.scale then some l.scaleY else pr.scaleY
  alpha := if p.alpha then some l.alpha else pr.alpha

/-- The `_current*` capture performed by `interpolateSprite` just before
blending: for each enabled category store the live value; size only for
`Sprite` instances. -/
def interpCur (p : SmoothieProperties) (isSprite : Bool) (l : LiveAttrs)
    (c : ShadowAttrs) : ShadowAttrs where
  x := if p.position then some l.x else c.x
  y := if p.position then some l.y else c.y
  rotation := if p.rotation then some l.rotation else c.rotation
  width := if p.size && isSprite then some l.width else c.width
  height := if p.size && isSprite then some l.height else c.height
  scaleX := if p.scale then some l.scaleX else c.scaleX
  scaleY := if p.scale then some l.scaleY else c.scaleY
  alpha := if p.alpha then some l.alpha else c.alpha

/-- The blend performed by `interpolateSprite` on the live values (after the
`_current*` capture): enabled categories with an existing `_previous*` value
are overwritten by the interpolated value; size only for `Sprite`
instances. -/
def interpLive (p : SmoothieProperties) (isSprite : Bool) (tick : ℚ)
    (l : LiveAttrs) (pr : ShadowAttrs) : LiveAttrs where
  x := if p.position then lerp tick pr.x l.x else l.x
  y := if p.position then lerp tick pr.y l.y else l.y
  rotation := if p.rotation then lerp tick pr.rotation l.rotation else l.rotation
  width := if p.size && isSprite then lerp tick pr.width l.width else l.width
  height := if p.size && isSprite then lerp tick pr.height l.height else l.height
  scaleX := if p.scale then lerp tick pr.scaleX l.scaleX else l.scaleX
  scaleY := if p.scale then lerp tick pr.scaleY l.scaleY else l.scaleY
  alpha := if p.alpha then lerp tick pr.alpha l.alpha else l.alpha

/-- Per-node body of `restoreSpriteProperties`: for each enabled category
write the `_current*` slot back into the live value; size only for `Sprite`
instances.  The source assigns `sprite.x = sprite._currentX` directly; the
`getD` default covers the slot-never-written case, which cannot occur inside
a render call because the interpolation pass (guarded by the same flags)
always fills the slot first. -/
def restoreLive (p : SmoothieProperties) (isSprite : Bool) (l : LiveAttrs)
    (c : ShadowAttrs) : LiveAttrs where
  x := if p.position then c.x.getD l.x else l.x
  y := if p.position then c.y.getD l.y else l.y
  rotation := if p.rotation then c.rotation.getD l.rotation else l.rotation
  width := if p.size && isSprite then c.width.getD l.width else l.width
  height := if p.size && isSprite then c.height.getD l.height else l.height
  scaleX := if p.scale then c.scaleX.getD l.scaleX else l.scaleX
  scaleY := if p.scale then c.scaleY.getD l.scaleY else l.scaleY
  alpha := if p.alpha then c.alpha.getD l.alpha else l.alpha

mutual
/-- Recursive walk of `capturePreviousSpriteProperties` over one node. -/
def captureNode (p : SmoothieProperties) : SpriteNode → SpriteNode
  | .node l pr c isS cs => .node l (capturePrev p l pr) c isS (captureForest p cs)
termination_by structural n => n
/-- `capturePreviousSpriteProperties` over a children array. -/
def captureForest (p : SmoothieProperties) : SpriteForest → SpriteForest
  | .nil => .nil
  | .cons n ns => .cons (captureNode p n) (captureForest p ns)
termination_by structural f => f
end

mutual
/-- Recursive walk of `interpolateSprite` over one node: capture `_current*`
from the live values, then blend the live values, then recurse. -/
def interpNode (p : SmoothieProperties) (tick : ℚ) : SpriteNode → SpriteNode
  | .node l pr c isS cs =>
      .node (interpLive p isS tick l pr) pr (interpCur p isS l c) isS
        (interpForest p tick cs)
termination_by structural n => n
/-- `interpolateSprite` over a children array. -/
def interpForest (p : SmoothieProperties) (tick : ℚ) : SpriteForest → SpriteForest
  | .nil => .nil
  | .cons n ns => .cons (interpNode p tick n) (interpForest p tick ns)
termination_by structural f => f
end

mutual
/-- Recursive walk of `restoreSpriteProperties` over one node. -/
def restoreNode (p : SmoothieProperties) : SpriteNode → SpriteNode
  | .node l pr c isS cs => .node (restoreLive p isS l c) pr c isS (restoreForest p cs)
termination_by structural n => n
/-- `restoreSpriteProperties` over a children array. -/
def restoreForest (p : SmoothieProperties) : SpriteForest → SpriteForest
  | .nil => .nil
  | .cons n ns => .cons (restoreNode p n) (restoreForest p ns)
termination_by structural f => f
end

mutual
/-- Forget the shadow banks of every node, keeping the observable live
attribute values (and the tree shape).  Two forests with equal `stripNode`
images are indistinguishable to the logic callback and to the renderer. -/
def stripNode : SpriteNode → SpriteNode
  | .node l _ _ isS cs => .node l emptyShadow emptyShadow isS (stripForest cs)
termination_by structural n => n
/-- `stripNode` over a children array. -/
def stripForest : SpriteForest → SpriteForest
  | .nil => .nil
  | .cons n ns => .cons (stripNode n) (stripForest ns)
termination_by structural f => f
end

mutual
/-- Every `_previous*` slot of every node is still `undefined`. -/
def prevNoneNode : SpriteNode → Bool
  | .node _ pr _ _ cs => decide (pr = emptyShadow) && prevNoneForest cs
termination_by structural n => n
/-- `prevNoneNode` over a children array. -/
def prevNoneForest : SpriteForest → Bool
  | .nil => true
  | .cons n ns => prevNoneNode n && prevNoneForest ns
termination_by structural f => f
end

/-- The mutable state of a `Smoothie` instance.  `updateCount` counts the
invocations of the user update callback and `draws` records, in order, each
call of `renderer.render` together with the tick value current at that call
and the forest handed to the renderer; both are observation instrumentation
for the otherwise externally-invisible callback and draw effects. -/
structure Smoothie where
  properties : SmoothieProperties
  stage : SpriteForest
  interpolate : Bool
  paused : Bool
  fps : Option ℚ
  frameDuration : Option ℚ
  renderFps : Option ℚ
  renderDuration : Option ℚ
  lag : ℚ
  tick : ℚ
  startTime : ℚ
  renderStartTime : ℚ
  updateCount : Nat
  draws : List (ℚ × SpriteForest)

/-- The `render` method: if `interpolate` is set, run the interpolation walk,
hand the (transiently blended) stage to `renderer.render`, then run the
restore walk; otherwise just draw.  The tick parameter defaults to 1 as in
`render(tick = 1)`. -/
def renderApply (s : Smoothie) (tick : ℚ := 1) : Smoothie :=
  let drawn := if s.interpolate then interpForest s.properties tick s.stage else s.stage
  let final := if s.interpolate then restoreForest s.properties drawn else drawn
  { s with stage := final, draws := s.draws ++ [(tick, drawn)] }

/-- The catch-up while loop of `doInterpolate`:
`while (lag >= frameDuration) { capture; update; lag -= frameDuration }`,
returning the final lag, the final forest and the number of update calls.
The loop is driven by explicit fuel because the source loop terminates only
for a positive frame duration (with `frameDuration` undefined the comparison
is against `NaN` and the loop body never runs, which the `0 < fd` conjunct
reproduces); `drainFuel` below always suffices when `0 < fd`. -/
def drainLoop (upd : SpriteForest → SpriteForest) (p : SmoothieProperties)
    (fd : ℚ) : Nat → ℚ → SpriteForest → ℚ × SpriteForest × Nat
  | 0, lag, f => (lag, f, 0)
  | fuel + 1, lag, f =>
      if 0 < fd ∧ fd ≤ lag then
        let f1 := upd (captureForest p f)
        let r := drainLoop upd p fd fuel (lag - fd) f1
        (r.1, r.2.1, r.2.2 + 1)
      else (lag, f, 0)

/-- Fuel bound for `drainLoop`: one more than the number of whole frame
durations inside the lag. -/
def drainFuel (lag fd : ℚ) : Nat := (⌊lag / fd⌋).toNat + 1

/-- The `doInterpolate` step: measure elapsed wall time, clamp anomalous
spikes (`elapsed > 1000` becomes one frame duration), accumulate into the
lag, drain whole frames through capture-and-update, set the tick to the
remaining fraction and render with it.  The source reads
`this._frameDuration!`; when that value is undefined its arithmetic is
`NaN`-valued (no drain iteration, `NaN` tick), a degenerate case outside
every claim, standing in here as `getD 0`. -/
def doInterpolate (upd : SpriteForest → SpriteForest) (s : Smoothie)
    (now : ℚ) : Smoothie :=
  let frameDuration := s.frameDuration.getD 0
  let elapsed0 := now - s.startTime
  let elapsed := if 1000 < elapsed0 then frameDuration else elapsed0
  let lag0 := s.lag + elapsed
  let r := drainLoop upd s.properties frameDuration (drainFuel lag0 frameDuration)
    lag0 s.stage
  let tick := r.1 / frameDuration
  renderApply
    { s with startTime := now, lag := r.1, stage := r.2.1,
             updateCount := s.updateCount + r.2.2, tick := tick } tick

/-- One invocation of `gameLoop` by the display-refresh source.  `timestamp`
is the requestAnimationFrame timestamp tested against `_renderStartTime`;
`now` is the value `Date.now()` yields inside `doInterpolate` (the source
uses both clocks). -/
def gameLoop (upd : SpriteForest → SpriteForest) (s : Smoothie)
    (timestamp now : ℚ) : Smoothie :=
  if s.paused then s
  else if s.fps = none then
    renderApply { s with stage := upd s.stage, updateCount := s.updateCount + 1 }
  else if s.renderFps = none ∨ s.renderDuration = none then
    doInterpolate upd s now
  else if s.renderStartTime ≤ timestamp then
    { doInterpolate upd s now with
        renderStartTime := timestamp + s.renderDuration.getD 0 }
  else s

/-- The `pause` method. -/
def Smoothie.pause (s : Smoothie) : Smoothie := { s with paused := true }

/-- The `resume` method. -/
def Smoothie.resume (s : Smoothie) : Smoothie := { s with paused := false }

/-- The `dt` accessor: the current interpolation fraction `_tick`. -/
def Smoothie.dt (s : Smoothie) : ℚ := s.tick

/-- Feed a sequence of elapsed-time deltas one per drain: each delta `δ`
makes `Date.now()` advance to `startTime + δ` before the next
`doInterpolate`. -/
def runDeltas (upd : SpriteForest → SpriteForest) (s : Smoothie) :
    List ℚ → Smoothie
  | [] => s
  | δ :: ds => runDeltas upd (doInterpolate upd s (s.startTime + δ)) ds

/-- Feed a sequence of display-refresh notifications, each carrying its
requestAnimationFrame timestamp and the matching `Date.now()` reading. -/
def runLoop (upd : SpriteForest → SpriteForest) (s : Smoothie) :
    List (ℚ × ℚ) → Smoothie
  | [] => s
  | (t, n) :: rest => runLoop upd (gameLoop upd s t n) rest

/-- The constructor options (`SmoothieOptions`).  `engine`, `renderer` and
`update` are opaque to this component (only their presence is ever tested),
so they are modelled by `Option Unit`; the update callback itself is the
`upd` parameter of the loop functions. -/
structure SmoothieOptions where
  engine : Option Unit
  renderer : Option Unit
  root : Option SpriteForest
  update : Option Unit
  interpolate : Option Bool
  fps : Option ℚ
  renderFps : Option ℚ
  properties : Option SmoothieProperties

/-- Default interpolated categories installed when no `properties` option is
given: `{ position: true, rotation: true }` (the absent optional fields are
falsy). -/
def defaultProperties : SmoothieProperties :=
  { position := true, rotation := true, size := false, scale := false,
    alpha := false }

/-- `!!fps ? 1000 / fps : undefined`: a rate of `0` is falsy and yields an
undefined duration. -/
def rateToDuration (fps : Option ℚ) : Option ℚ :=
  match fps with
  | some f => if f = 0 then none else some (1000 / f)
  | none => none

/-- The `Smoothie` constructor.  Each missing required option throws
synchronously, in source order: `engine`, then `renderer`, then `root`, then
`update`.  `now` is the `Date.now()` reading taken for `_startTime`. -/
def construct (o : SmoothieOptions) (now : ℚ) : Except String Smoothie :=
  if o.engine = none then
    .error "Please assign a rendering engine"
  else if o.renderer = none then
    .error "Please assign a renderer object"
  else if o.root = none then
    .error "Please assign a root container object (the stage)"
  else if o.update = none then
    .error "Please assign an update function"
  else
    .ok { properties := o.properties.getD defaultProperties
          stage := o.root.getD .nil
          interpolate := if o.interpolate = some false then false else true
          paused := false
          fps := o.fps
          frameDuration := rateToDuration o.fps
          renderFps := o.renderFps
          renderDuration := rateToDuration o.renderFps
          lag := 0
          tick := 0
          startTime := now
          renderStartTime := 0
          updateCount := 0
          draws := [] }

/-- Whether construction succeeds without throwing. -/
def constructOk (o : SmoothieOptions) (now : ℚ) : Bool :=
  match construct o now with
  | .ok _ => true
  | .error _ => false

/-- The lag immediately after the clamp-and-accumulate step of
`doInterpolate` at wall-clock reading `now`, when the frame duration is
`d`. -/
def lagAfterAccum (s : Smoothie) (now d : ℚ) : ℚ :=
  s.lag + (if 1000 < now - s.startTime then d else now - s.startTime)

/-- The number of catch-up update steps the drain loop of `doInterpolate`
runs at wall-clock reading `now`, when the frame duration is `d`. -/
def stepCount (s : Smoothie) (now d : ℚ) : Nat :=
  (⌊lagAfterAccum s now d / d⌋).toNat

/-- First live `x` value of a forest (the ball sprite in the demo scene). -/
def forestHeadX : SpriteForest → Option ℚ
  | .nil => none
  | .cons (.node l _ _ _ _) _ => some l.x

/-- Position-only interpolation configuration. -/
def posOnlyProps : SmoothieProperties :=
  { position := true, rotation := false, size := false, scale := false,
    alpha := false }

/-- A sprite that has just moved from `x = 0` to `x = 10` in one logic step:
its live `x` is 10 and its previous position snapshot holds `x = 0`. -/
def ballNode : SpriteNode :=
  .node { x := 10, y := 0, rotation := 0, width := 0, height := 0,
          scaleX := 1, scaleY := 1, alpha := 1 }
    { emptyShadow with x := some 0, y := some 0 } emptyShadow true .nil

/-- A freshly created sprite: every shadow slot of every bank is still
`undefined`. -/
def ballFresh : SpriteNode :=
  .node { x := 10, y := 20, rotation := 0, width := 80, height := 80,
          scaleX := 1, scaleY := 1, alpha := 1 }
    emptyShadow emptyShadow true .nil

/-- A scheduler state whose stage holds just `ballNode`, with position-only
interpolation enabled. -/
def ballState : Smoothie :=
  { properties := posOnlyProps, stage := .cons ballNode .nil,
    interpolate := true, paused := false, fps := some 60,
    frameDuration := some (50/3), renderFps := none, renderDuration := none,
    lag := 0, tick := 0, startTime := 0, renderStartTime := 0,
    updateCount := 0, draws := [] }

/-- A scheduler state with a 2 steps-per-second logic rate (frame duration
500 ms) and an empty stage. -/
def c1State : Smoothie :=
  { properties := defaultProperties, stage := .nil, interpolate := true,
    paused := false, fps := some 2, frameDuration := some 500,
    renderFps := none, renderDuration := none, lag := 0, tick := 0,
    startTime := 0, renderStartTime := 0, updateCount := 0, draws := [] }

/-- A scheduler state with a 60 steps-per-second logic rate (frame duration
1000/60 ms) and an empty stage. -/
def c3State : Smoothie :=
  { properties := defaultProperties, stage := .nil, interpolate := true,
    paused := false, fps := some 60, frameDuration := some (1000/60),
    renderFps := none, renderDuration := none, lag := 0, tick := 0,
    startTime := 0, renderStartTime := 0, updateCount := 0, draws := [] }

/-- A scheduler state with logic rate 60/s and a render-rate cap of 30/s
(render duration 100/3 ms). -/
def capState : Smoothie :=
  { properties := defaultProperties, stage := .nil, interpolate := true,
    paused := false, fps := some 60, frameDuration := some (50/3),
    renderFps := some 30, renderDuration := some (100/3), lag := 0,
    tick := 0, startTime := 0, renderStartTime := 0, updateCount := 0,
    draws := [] }

/-- Six display-refresh notifications arriving at 60/s (every 50/3 ms),
with the requestAnimationFrame timestamp and the `Date.now()` reading
advancing together. -/
def capNotifs : List (ℚ × ℚ) :=
  [(0, 0), (50/3, 50/3), (100/3, 100/3), (50, 50), (200/3, 200/3),
   (250/3, 250/3)]

/-- The state of the render-cap scenario after its first notification. -/
def capS1 : Smoothie := gameLoop id capState 0 0

/-- The state of the render-cap scenario after its third notification (the
second is skipped). -/
def capS3 : Smoothie := gameLoop id capS1 (100/3) (100/3)

/-- The state of the render-cap scenario after its fifth notification (the
fourth is skipped). -/
def capS5 : Smoothie := gameLoop id capS3 (200/3) (200/3)

/-- A scheduler state with no logic rate configured (`fps` undefined):
the as-fast-as-possible mode. -/
def noFpsState : Smoothie :=
  { properties := defaultProperties, stage := .cons ballFresh .nil,
    interpolate := true, paused := false, fps := none,
    frameDuration := none, renderFps := none, renderDuration := none,
    lag := 7, tick := 0, startTime := 3, renderStartTime := 0,
    updateCount := 0, draws := [] }

/-- A paused scheduler state. -/
def pausedState : Smoothie :=
  { properties := defaultProperties, stage := .cons ballFresh .nil,
    interpolate := true, paused := true, fps := some 60,
    frameDuration := some (50/3), renderFps := none, renderDuration := none,
    lag := 5, tick := 1/4, startTime := 11, renderStartTime := 2,
    updateCount := 4, draws := [] }

/-- Construction options missing only the `engine` option. -/
def cexOptions : SmoothieOptions :=
  { engine := none, renderer := some (), root := some .nil,
    update := some (), interpolate := none, fps := none, renderFps := none,
    properties := none }

theorem drainLoop_eq (upd : SpriteForest → SpriteForest)
    (p : SmoothieProperties) {fd : ℚ} (hfd : 0 < fd) :
    ∀ (fuel : Nat) (lag : ℚ) (f : SpriteForest), (⌊lag / fd⌋).toNat < fuel →
      drainLoop upd p fd fuel lag f =
        (lag - ((⌊lag / fd⌋).toNat : ℚ) * fd,
         (fun g => upd (captureForest p g))^[(⌊lag / fd⌋).toNat] f,
         (⌊lag / fd⌋).toNat)
  | 0, _, _, h => absurd h (Nat.not_lt_zero _)
  | fuel + 1, lag, f, h => by
      by_cases hle : fd ≤ lag
      · have h1 : (1 : ℤ) ≤ ⌊lag / fd⌋ := by
          rw [Int.le_floor]
          push_cast
          exact (one_le_div hfd).mpr hle
        have hrw : (lag - fd) / fd = lag / fd - 1 := by
          rw [sub_div, div_self hfd.ne']
        have hstep : ⌊(lag - fd) / fd⌋ = ⌊lag / fd⌋ - 1 := by
          rw [hrw]
          exact_mod_cast Int.floor_sub_int (lag / fd) 1
        have hlt : (⌊(lag - fd) / fd⌋).toNat < fuel := by
          rw [hstep]; omega
        have ih := drainLoop_eq upd p hfd fuel (lag - fd)
          (upd (captureForest p f)) hlt
        have hn : (⌊(lag - fd) / fd⌋).toNat + 1 = (⌊lag / fd⌋).toNat := by
          rw [hstep]; omega
        simp only [drainLoop, if_pos (And.intro hfd hle)]
        rw [ih, ← hn]
        simp only [Prod.mk.injEq]
        refine ⟨by push_cast; ring, ?_, by simp⟩
        exact (Function.iterate_succ_apply _ _ _).symm
      · have h0 : ⌊lag / fd⌋ < 1 := by
          rw [Int.floor_lt]
          push_cast
          exact (div_lt_one hfd).mpr (not_le.mp hle)
        have ht : (⌊lag / fd⌋).toNat = 0 := by omega
        simp only [drainLoop]
        rw [if_neg (by rintro ⟨-, c⟩; exact hle c), ht]
        simp

theorem lag_sub_floor_bounds {lag fd : ℚ} (hfd : 0 < fd) (hlag : 0 ≤ lag) :
    0 ≤ lag - ((⌊lag / fd⌋).toNat : ℚ) * fd ∧
      lag - ((⌊lag / fd⌋).toNat : ℚ) * fd < fd := by
  have hnn : (0 : ℤ) ≤ ⌊lag / fd⌋ := Int.floor_nonneg.mpr (div_nonneg hlag hfd.le)
  have hcast : ((⌊lag / fd⌋).toNat : ℚ) = ((⌊lag / fd⌋ : ℤ) : ℚ) := by
    exact_mod_cast congrArg Int.cast (Int.toNat_of_nonneg hnn)
  have h1 : ((⌊lag / fd⌋ : ℤ) : ℚ) * fd ≤ lag := by
    rw [← le_div_iff hfd]
    exact Int.floor_le _
  have h2 : lag < (((⌊lag / fd⌋ : ℤ) : ℚ) + 1) * fd := by
    rw [← div_lt_iff hfd]
    exact Int.lt_floor_add_one _
  rw [hcast]
  constructor <;> nlinarith [h1, h2]

theorem doInterpolate_eq (upd : SpriteForest → SpriteForest) (s : Smoothie)
    (now : ℚ) {d : ℚ} (hfd : s.frameDuration = some d) (hd : 0 < d) :
    doInterpolate upd s now =
      renderApply
        { s with startTime := now,
                 lag := lagAfterAccum s now d - (stepCount s now d : ℚ) * d,
                 stage := (fun g =>
                   upd (captureForest s.properties g))^[stepCount s now d] s.stage,
                 updateCount := s.updateCount + stepCount s now d,
                 tick := (lagAfterAccum s now d - (stepCount s now d : ℚ) * d) / d }
        ((lagAfterAccum s now d - (stepCount s now d : ℚ) * d) / d) := by
  have hb : stepCount s now d < drainFuel (lagAfterAccum s now d) d :=
    Nat.lt_succ_self _
  have hdl := drainLoop_eq upd s.properties hd
    (drainFuel (lagAfterAccum s now d) d) (lagAfterAccum s now d) s.stage hb
  have hacc : s.lag + (if 1000 < now - s.startTime then d
      else now - s.startTime) = lagAfterAccum s now d := rfl
  unfold doInterpolate
  rw [hfd]
  simp only [Option.getD_some]
  rw [hacc, hdl]
  rfl

@[simp] theorem renderApply_stage (s : Smoothie) (tick : ℚ) :
    (renderApply s tick).stage =
      if s.interpolate then
        restoreForest s.properties (interpForest s.properties tick s.stage)
      else s.stage := by
  cases h : s.interpolate <;> simp [renderApply, h]

@[simp] theorem renderApply_draws (s : Smoothie) (tick : ℚ) :
    (renderApply s tick).draws =
      s.draws ++ [(tick, if s.interpolate then
        interpForest s.properties tick s.stage else s.stage)] := by
  cases h : s.interpolate <;> simp [renderApply, h]

@[simp] theorem renderApply_paused (s : Smoothie) (tick : ℚ) :
    (renderApply s tick).paused = s.paused := rfl

@[simp] theorem renderApply_fps (s : Smoothie) (tick : ℚ) :
    (renderApply s tick).fps = s.fps := rfl

@[simp] theorem renderApply_frameDuration (s : Smoothie) (tick : ℚ) :
    (renderApply s tick).frameDuration = s.frameDuration := rfl

@[simp] theorem renderApply_renderFps (s : Smoothie) (tick : ℚ) :
    (renderApply s tick).renderFps = s.renderFps := rfl

@[simp] theorem renderApply_renderDuration (s : Smoothie) (tick : ℚ) :
    (renderApply s tick).renderDuration = s.renderDuration := rfl

@[simp] theorem renderApply_lag (s : Smoothie) (tick : ℚ) :
    (renderApply s tick).lag = s.lag := rfl

@[simp] theorem renderApply_tick (s : Smoothie) (tick : ℚ) :
    (renderApply s tick).tick = s.tick := rfl

@[simp] theorem renderApply_startTime (s : Smoothie) (tick : ℚ) :
    (renderApply s tick).startTime = s.startTime := rfl

@[simp] theorem renderApply_renderStartTime (s : Smoothie) (tick : ℚ) :
    (renderApply s tick).renderStartTime = s.renderStartTime := rfl

@[simp] theorem renderApply_updateCount (s : Smoothie) (tick : ℚ) :
    (renderApply s tick).updateCount = s.updateCount := rfl

@[simp] theorem renderApply_properties (s : Smoothie) (tick : ℚ) :
    (renderApply s tick).properties = s.properties := rfl

@[simp] theorem renderApply_interpolate (s : Smoothie) (tick : ℚ) :
    (renderApply s tick).interpolate = s.interpolate := rfl

@[simp] theorem doInterpolate_paused (upd : SpriteForest → SpriteForest)
    (s : Smoothie) (now : ℚ) : (doInterpolate upd s now).paused = s.paused := rfl

@[simp] theorem doInterpolate_fps (upd : SpriteForest → SpriteForest)
    (s : Smoothie) (now : ℚ) : (doInterpolate upd s now).fps = s.fps := rfl

@[simp] theorem doInterpolate_frameDuration (upd : SpriteForest → SpriteForest)
    (s : Smoothie) (now : ℚ) :
    (doInterpolate upd s now).frameDuration = s.frameDuration := rfl

@[simp] theorem doInterpolate_renderFps (upd : SpriteForest → SpriteForest)
    (s : Smoothie) (now : ℚ) :
    (doInterpolate upd s now).renderFps = s.renderFps := rfl

@[simp] theorem doInterpolate_renderDuration (upd : SpriteForest → SpriteForest)
    (s : Smoothie) (now : ℚ) :
    (doInterpolate upd s now).renderDuration = s.renderDuration := rfl

@[simp] theorem doInterpolate_renderStartTime (upd : SpriteForest → SpriteForest)
    (s : Smoothie) (now : ℚ) :
    (doInterpolate upd s now).renderStartTime = s.renderStartTime := rfl

@[simp] theorem doInterpolate_startTime (upd : SpriteForest → SpriteForest)
    (s : Smoothie) (now : ℚ) : (doInterpolate upd s now).startTime = now := rfl

@[simp] theorem doInterpolate_properties (upd : SpriteForest → SpriteForest)
    (s : Smoothie) (now : ℚ) :
    (doInterpolate upd s now).properties = s.properties := rfl

@[simp] theorem doInterpolate_interpolate (upd : SpriteForest → SpriteForest)
    (s : Smoothie) (now : ℚ) :
    (doInterpolate upd s now).interpolate = s.interpolate := rfl

@[simp] theorem doInterpolate_draws_length (upd : SpriteForest → SpriteForest)
    (s : Smoothie) (now : ℚ) :
    (doInterpolate upd s now).draws.length = s.draws.length + 1 := by
  unfold doInterpolate
  simp

theorem lerp_one (prev : Option ℚ) (v : ℚ) : lerp 1 prev v = v := by
  cases prev <;> simp [lerp]

theorem lerp_none (tick v : ℚ) : lerp tick none v = v := rfl

theorem restoreLive_interpLive_interpCur (p : SmoothieProperties)
    (isS : Bool) (tick : ℚ) (l : LiveAttrs) (pr c : ShadowAttrs) :
    restoreLive p isS (interpLive p isS tick l pr) (interpCur p isS l c) = l := by
  ext <;> simp only [restoreLive, interpLive, interpCur] <;>
    split_ifs <;> simp

theorem interpLive_one (p : SmoothieProperties) (isS : Bool) (l : LiveAttrs)
    (pr : ShadowAttrs) : interpLive p isS 1 l pr = l := by
  ext <;> simp [interpLive, lerp_one]

theorem interpLive_emptyShadow (p : SmoothieProperties) (isS : Bool)
    (tick : ℚ) (l : LiveAttrs) : interpLive p isS tick l emptyShadow = l := by
  ext <;> simp [interpLive, emptyShadow, lerp_none]

theorem stripForest_restore_interp (p : SmoothieProperties) (tick : ℚ) :
    ∀ f : SpriteForest,
      stripForest (restoreForest p (interpForest p tick f)) = stripForest f
  | .nil => rfl
  | .cons (.node l pr c isS cs) ns => by
      simp only [interpForest, interpNode, restoreForest, restoreNode,
        stripForest, stripNode]
      rw [restoreLive_interpLive_interpCur, stripForest_restore_interp p tick cs,
        stripForest_restore_interp p tick ns]

theorem stripForest_interp_one (p : SmoothieProperties) :
    ∀ f : SpriteForest, stripForest (interpForest p 1 f) = stripForest f
  | .nil => rfl
  | .cons (.node l pr c isS cs) ns => by
      simp only [interpForest, interpNode, stripForest, stripNode]
      rw [interpLive_one, stripForest_interp_one p cs, stripForest_interp_one p ns]

theorem stripForest_interp_of_prevNone (p : SmoothieProperties) (tick : ℚ) :
    ∀ f : SpriteForest, prevNoneForest f = true →
      stripForest (interpForest p tick f) = stripForest f
  | .nil, _ => rfl
  | .cons (.node l pr c isS cs) ns, h => by
      simp only [prevNoneForest, prevNoneNode, Bool.and_eq_true,
        decide_eq_true_eq] at h
      obtain ⟨⟨hpr, hcs⟩, hns⟩ := h
      subst hpr
      simp only [interpForest, interpNode, stripForest, stripNode]
      rw [interpLive_emptyShadow, stripForest_interp_of_prevNone p tick cs hcs,
        stripForest_interp_of_prevNone p tick ns hns]

theorem prevNoneForest_interp (p : SmoothieProperties) (tick : ℚ) :
    ∀ f : SpriteForest, prevNoneForest (interpForest p tick f) = prevNoneForest f
  | .nil => rfl
  | .cons (.node l pr c isS cs) ns => by
      simp only [interpForest, interpNode, prevNoneForest, prevNoneNode]
      rw [prevNoneForest_interp p tick cs, prevNoneForest_interp p tick ns]

theorem prevNoneForest_restore (p : SmoothieProperties) :
    ∀ f : SpriteForest, prevNoneForest (restoreForest p f) = prevNoneForest f
  | .nil => rfl
  | .cons (.node l pr c isS cs) ns => by
      simp only [restoreForest, restoreNode, prevNoneForest, prevNoneNode]
      rw [prevNoneForest_restore p cs, prevNoneForest_restore p ns]

theorem gameLoop_paused (upd : SpriteForest → SpriteForest) (s : Smoothie)
    (t now : ℚ) (hp : s.paused = true) : gameLoop upd s t now = s := by
  simp [gameLoop, hp]

theorem gameLoop_no_fps (upd : SpriteForest → SpriteForest) (s : Smoothie)
    (t now : ℚ) (hp : s.paused = false) (hf : s.fps = none) :
    gameLoop upd s t now =
      renderApply { s with stage := upd s.stage,
                           updateCount := s.updateCount + 1 } := by
  simp [gameLoop, hp, hf]

theorem gameLoop_render_due (upd : SpriteForest → SpriteForest) (s : Smoothie)
    (t now : ℚ) {x rd : ℚ} (hp : s.paused = false) (hf : s.fps = some x)
    (hrf : s.renderFps ≠ none) (hrd : s.renderDuration = some rd)
    (ht : s.renderStartTime ≤ t) :
    gameLoop upd s t now =
      { doInterpolate upd s now with renderStartTime := t + rd } := by
  simp [gameLoop, hp, hf, hrf, hrd, ht]

theorem gameLoop_render_skip (upd : SpriteForest → SpriteForest) (s : Smoothie)
    (t now : ℚ) {x : ℚ} (hp : s.paused = false) (hf : s.fps = some x)
    (hrf : s.renderFps ≠ none) (hrd : s.renderDuration ≠ none)
    (ht : ¬ s.renderStartTime ≤ t) : gameLoop upd s t now = s := by
  simp [gameLoop, hp, hf, hrf, hrd, ht]

theorem runDeltas_cons (upd : SpriteForest → SpriteForest) (s : Smoothie)
    (δ : ℚ) (ds : List ℚ) :
    runDeltas upd s (δ :: ds) =
      runDeltas upd (doInterpolate upd s (s.startTime + δ)) ds := rfl

theorem runDeltas_spec (upd : SpriteForest → SpriteForest) :
    ∀ (ds : List ℚ) (s : Smoothie) {d : ℚ}, s.frameDuration = some d →
      0 < d → 0 ≤ s.lag → s.lag < d → (∀ δ ∈ ds, 0 ≤ δ ∧ δ ≤ 1000) →
      (runDeltas upd s ds).updateCount
          = s.updateCount + (⌊(s.lag + ds.sum) / d⌋).toNat ∧
        0 ≤ (runDeltas upd s ds).lag ∧ (runDeltas upd s ds).lag < d ∧
        (runDeltas upd s ds).frameDuration = some d
  | [], s, d, hfd, hd, hl0, hl1, _ => by
      have h0 : ⌊s.lag / d⌋ = 0 := by
        rw [Int.floor_eq_zero_iff]
        exact ⟨div_nonneg hl0 hd.le, (div_lt_one hd).mpr hl1⟩
      simp [runDeltas, h0, hl0, hl1, hfd]
  | δ :: ds, s, d, hfd, hd, hl0, hl1, hds => by
      have hδ := hds δ (List.mem_cons_self δ ds)
      have hds2 : ∀ x ∈ ds, 0 ≤ x ∧ x ≤ 1000 := fun x h2 =>
        hds x (List.mem_cons_of_mem _ h2)
      have hsum0 : 0 ≤ ds.sum := List.sum_nonneg fun x hx => (hds2 x hx).1
      have hL0 : 0 ≤ s.lag + δ := by linarith [hδ.1]
      have hnc : ¬ (1000 : ℚ) < s.startTime + δ - s.startTime := by
        have he : s.startTime + δ - s.startTime = δ := by ring
        rw [he]; exact not_lt.mpr hδ.2
      have hacc : lagAfterAccum s (s.startTime + δ) d = s.lag + δ := by
        unfold lagAfterAccum
        rw [if_neg hnc]; ring
      have hstep : stepCount s (s.startTime + δ) d
          = (⌊(s.lag + δ) / d⌋).toNat := by
        unfold stepCount; rw [hacc]
      have heq := doInterpolate_eq upd s (s.startTime + δ) hfd hd
      have hs2lag : (doInterpolate upd s (s.startTime + δ)).lag
          = (s.lag + δ) - ((⌊(s.lag + δ) / d⌋).toNat : ℚ) * d := by
        rw [heq, renderApply_lag]
        simp only [hacc, hstep]
      have hs2cnt : (doInterpolate upd s (s.startTime + δ)).updateCount
          = s.updateCount + (⌊(s.lag + δ) / d⌋).toNat := by
        rw [heq, renderApply_updateCount]
        simp only [hstep]
      have hs2fd : (doInterpolate upd s (s.startTime + δ)).frameDuration
          = some d := by
        rw [doInterpolate_frameDuration, hfd]
      have hb2 := lag_sub_floor_bounds hd hL0
      have hs2l0 : 0 ≤ (doInterpolate upd s (s.startTime + δ)).lag := by
        rw [hs2lag]; exact hb2.1
      have hs2l1 : (doInterpolate upd s (s.startTime + δ)).lag < d := by
        rw [hs2lag]; exact hb2.2
      obtain ⟨ihcnt, ihl0, ihl1, ihfd⟩ :=
        runDeltas_spec upd ds (doInterpolate upd s (s.startTime + δ))
          hs2fd hd hs2l0 hs2l1 hds2
      rw [runDeltas_cons]
      have hF0 : (0 : ℤ) ≤ ⌊(s.lag + δ) / d⌋ :=
        Int.floor_nonneg.mpr (div_nonneg hL0 hd.le)
      have hFcast : (((⌊(s.lag + δ) / d⌋).toNat : ℚ))
          = ((⌊(s.lag + δ) / d⌋ : ℤ) : ℚ) := by
        exact_mod_cast congrArg Int.cast (Int.toNat_of_nonneg hF0)
      have hkey : ⌊((doInterpolate upd s (s.startTime + δ)).lag + ds.sum) / d⌋
          = ⌊(s.lag + δ + ds.sum) / d⌋ - ⌊(s.lag + δ) / d⌋ := by
        rw [hs2lag, hFcast]
        have hnum : s.lag + δ - ((⌊(s.lag + δ) / d⌋ : ℤ) : ℚ) * d + ds.sum
            = (s.lag + δ + ds.sum) - ((⌊(s.lag + δ) / d⌋ : ℤ) : ℚ) * d := by
          ring
        rw [hnum, sub_div, mul_div_cancel_right₀ _ hd.ne']
        exact Int.floor_sub_int _ _
      have hA_ge : ⌊(s.lag + δ) / d⌋ ≤ ⌊(s.lag + δ + ds.sum) / d⌋ :=
        Int.floor_le_floor ((div_le_div_right hd).mpr (by linarith [hsum0]))
      refine ⟨?_, ihl0, ihl1, ihfd⟩
      rw [ihcnt, hs2cnt, hkey, List.sum_cons, ← add_assoc]
      omega

/-- Claim C1 counterexample: from `c1State` (tick duration 500 ms, lag 0) a
single elapsed delta of 2000 ms is first clamped to one tick duration, so
the drain runs the update callback once, not `⌊2000 / 500⌋ = 4` times; the
claimed count formula fails for deltas above the 1000 ms ceiling. -/
theorem smoothie_C1_cex :
    ¬ ((runDeltas id c1State [2000]).updateCount
        = c1State.updateCount
          + (⌊(c1State.lag + ([(2000 : ℚ)]).sum) / 500⌋).toNat) := by
  have heq := doInterpolate_eq id c1State (c1State.startTime + 2000) rfl
    (by norm_num)
  have hcnt : (runDeltas id c1State [2000]).updateCount = 1 := by
    rw [runDeltas_cons]
    show (doInterpolate id c1State (c1State.startTime + 2000)).updateCount = 1
    rw [heq, renderApply_updateCount]
    show c1State.updateCount + stepCount c1State (c1State.startTime + 2000) 500 = 1
    norm_num [c1State, stepCount, lagAfterAccum]
  rw [hcnt]
  norm_num [c1State]
  decide

/-- Claim C1 (amended): for a configured positive tick duration, an initial
lag in `[0, tickDuration)` and any finite sequence of elapsed-time deltas
each lying in `[0, 1000]` (at or below the anomalous-gap ceiling, so no
clamping fires), feeding the deltas one per drain makes the total number of
update-callback invocations equal `⌊(lag_before + Σ deltas) / tickDuration⌋`,
and after every drain the lag accumulator is in `[0, tickDuration)`. -/
theorem smoothie_C1_amended (upd : SpriteForest → SpriteForest) (s : Smoothie)
    {d : ℚ} (ds : List ℚ) (hfd : s.frameDuration = some d) (hd : 0 < d)
    (hl0 : 0 ≤ s.lag) (hl1 : s.lag < d)
    (hds : ∀ δ ∈ ds, 0 ≤ δ ∧ δ ≤ 1000) :
    (runDeltas upd s ds).updateCount
        = s.updateCount + (⌊(s.lag + ds.sum) / d⌋).toNat ∧
      ∀ k : Nat, 0 ≤ (runDeltas upd s (ds.take k)).lag ∧
        (runDeltas upd s (ds.take k)).lag < d := by
  refine ⟨(runDeltas_spec upd ds s hfd hd hl0 hl1 hds).1, fun k => ?_⟩
  have h := runDeltas_spec upd (ds.take k) s hfd hd hl0 hl1
    (fun δ hδ => hds δ (List.take_subset k ds hδ))
  exact ⟨h.2.1, h.2.2.1⟩

theorem smoothie_C1_witness :
    (c1State.frameDuration = some 500 ∧ (0 : ℚ) < 500 ∧ 0 ≤ c1State.lag ∧
        c1State.lag < 500 ∧ ∀ δ ∈ [(400 : ℚ), 400, 400], 0 ≤ δ ∧ δ ≤ 1000) ∧
      (runDeltas id c1State [400, 400, 400]).updateCount
        = c1State.updateCount
          + (⌊(c1State.lag + ([(400 : ℚ), 400, 400]).sum) / 500⌋).toNat := by
  have hds : ∀ δ ∈ [(400 : ℚ), 400, 400], 0 ≤ δ ∧ δ ≤ 1000 := by
    intro δ hδ
    fin_cases hδ <;> norm_num
  exact ⟨⟨rfl, by norm_num, by norm_num [c1State], by norm_num [c1State], hds⟩,
    (smoothie_C1_amended id c1State [400, 400, 400] rfl (by norm_num)
      (by norm_num [c1State]) (by norm_num [c1State]) hds).1⟩

/-- Claim C3: in a drain with the lag accumulator below one tick duration
and a 1000/60 ms tick duration, an elapsed delta of 5000 ms is clamped to
exactly one tick duration before accumulation, so the drain invokes the
update callback exactly once (not about 300 times). -/
theorem smoothie_C3 (upd : SpriteForest → SpriteForest) (s : Smoothie)
    (hfd : s.frameDuration = some (1000 / 60)) (hl0 : 0 ≤ s.lag)
    (hl1 : s.lag < 1000 / 60) :
    (doInterpolate upd s (s.startTime + 5000)).updateCount
      = s.updateCount + 1 := by
  have hd : (0 : ℚ) < 1000 / 60 := by norm_num
  have heq := doInterpolate_eq upd s (s.startTime + 5000) hfd hd
  rw [heq, renderApply_updateCount]
  show s.updateCount + stepCount s (s.startTime + 5000) (1000 / 60)
    = s.updateCount + 1
  have h5 : s.startTime + 5000 - s.startTime = 5000 := by ring
  have hacc : lagAfterAccum s (s.startTime + 5000) (1000 / 60)
      = s.lag + 1000 / 60 := by
    unfold lagAfterAccum
    rw [h5, if_pos (by norm_num : (1000 : ℚ) < 5000)]
  have hfl : ⌊(s.lag + 1000 / 60) / (1000 / 60)⌋ = 1 := by
    rw [Int.floor_eq_iff]
    constructor
    · push_cast
      rw [le_div_iff hd]
      linarith
    · push_cast
      rw [div_lt_iff hd]
      linarith
  unfold stepCount
  rw [hacc, hfl]
  rfl

theorem smoothie_C3_witness :
    (c3State.frameDuration = some (1000 / 60) ∧ 0 ≤ c3State.lag ∧
        c3State.lag < 1000 / 60) ∧
      (doInterpolate id c3State (c3State.startTime + 5000)).updateCount
        = c3State.updateCount + 1 :=
  ⟨⟨rfl, by norm_num [c3State], by norm_num [c3State]⟩,
    smoothie_C3 id c3State rfl (by norm_num [c3State]) (by norm_num [c3State])⟩

/-- Claim C4: after a drain-and-render (nonnegative lag beforehand and a
wall clock that did not run backwards), the interpolation fraction exposed
by the `dt` accessor equals `lag / tickDuration` and lies in `[0, 1)`. -/
theorem smoothie_C4 (upd : SpriteForest → SpriteForest) (s : Smoothie)
    (now : ℚ) {d : ℚ} (hfd : s.frameDuration = some d) (hd : 0 < d)
    (hlag : 0 ≤ s.lag) (hnow : s.startTime ≤ now) :
    Smoothie.dt (doInterpolate upd s now) = (doInterpolate upd s now).lag / d ∧
      0 ≤ Smoothie.dt (doInterpolate upd s now) ∧
      Smoothie.dt (doInterpolate upd s now) < 1 := by
  have hL : 0 ≤ lagAfterAccum s now d := by
    unfold lagAfterAccum
    split_ifs with h
    · linarith
    · have h2 : 0 ≤ now - s.startTime := by linarith
      linarith
  have hb := lag_sub_floor_bounds hd hL
  have heq := doInterpolate_eq upd s now hfd hd
  have hlag2 : (doInterpolate upd s now).lag
      = lagAfterAccum s now d - (stepCount s now d : ℚ) * d := by
    rw [heq]; rfl
  have htick : (doInterpolate upd s now).tick
      = (lagAfterAccum s now d - (stepCount s now d : ℚ) * d) / d := by
    rw [heq]; rfl
  have hb1 : 0 ≤ lagAfterAccum s now d - (stepCount s now d : ℚ) * d := hb.1
  have hb2 : lagAfterAccum s now d - (stepCount s now d : ℚ) * d < d := hb.2
  refine ⟨?_, ?_, ?_⟩
  · show (doInterpolate upd s now).tick = (doInterpolate upd s now).lag / d
    rw [htick, hlag2]
  · show 0 ≤ (doInterpolate upd s now).tick
    rw [htick]
    exact div_nonneg hb1 hd.le
  · show (doInterpolate upd s now).tick < 1
    rw [htick, div_lt_one hd]
    linarith

theorem smoothie_C4_witness :
    (c3State.frameDuration = some (1000 / 60) ∧ (0 : ℚ) < 1000 / 60 ∧
        0 ≤ c3State.lag ∧ c3State.startTime ≤ 10) ∧
      (Smoothie.dt (doInterpolate id c3State 10)
          = (doInterpolate id c3State 10).lag / (1000 / 60) ∧
        0 ≤ Smoothie.dt (doInterpolate id c3State 10) ∧
        Smoothie.dt (doInterpolate id c3State 10) < 1) :=
  ⟨⟨rfl, by norm_num, by norm_num [c3State], by norm_num [c3State]⟩,
    smoothie_C4 id c3State 10 rfl (by norm_num) (by norm_num [c3State])
      (by norm_num [c3State])⟩

/-- Claim C2: for every scheduler state with interpolation enabled (any
scene tree, any set of enabled attribute categories) and every fraction, a
full render call leaves every node's observable live attribute values equal
to their values before the call: the blend applied for the draw is fully
undone by the restore walk. -/
theorem smoothie_C2 (s : Smoothie) (tick : ℚ) (hint : s.interpolate = true) :
    stripForest (renderApply s tick).stage = stripForest s.stage := by
  rw [renderApply_stage]
  simp only [hint, if_true]
  exact stripForest_restore_interp s.properties tick s.stage

theorem smoothie_C2_witness :
    ballState.interpolate = true ∧
      stripForest (renderApply ballState (1/2)).stage
        = stripForest ballState.stage :=
  ⟨rfl, smoothie_C2 ballState (1/2) rfl⟩

/-- Claim C5: with position interpolation enabled and a node whose previous
position snapshot holds `x = 0` while its live post-logic `x` is 10, a
render call with fraction 1/2 hands the renderer a stage whose node has
`x = 5` (via `previous + (live - previous) * fraction`), and the restore
walk puts the live `x` back to 10 immediately after the draw. -/
theorem smoothie_C5 :
    ((renderApply ballState (1/2)).draws.map fun dr => forestHeadX dr.2)
        = [some 5] ∧
      forestHeadX (renderApply ballState (1/2)).stage = some 10 := by
  constructor
  · norm_num [renderApply_draws, ballState, posOnlyProps, ballNode,
      interpForest, interpNode, interpLive, interpCur, forestHeadX, lerp,
      emptyShadow]
  · norm_num [renderApply_stage, ballState, posOnlyProps, ballNode,
      interpForest, interpNode, interpLive, interpCur, restoreForest,
      restoreNode, restoreLive, forestHeadX, lerp, emptyShadow]

/-- Claim C7: with no logic rate configured and the scheduler not paused, a
scheduled invocation runs the update callback exactly once and then renders
exactly once with fraction 1, performing no lag accumulation or drain; at
fraction 1 the blend leaves every live value unchanged, so no blending is
visible. -/
theorem smoothie_C7 (upd : SpriteForest → SpriteForest) (s : Smoothie)
    (t now : ℚ) (hp : s.paused = false) (hf : s.fps = none) :
    gameLoop upd s t now
        = renderApply { s with stage := upd s.stage,
                               updateCount := s.updateCount + 1 } ∧
      (gameLoop upd s t now).updateCount = s.updateCount + 1 ∧
      (gameLoop upd s t now).lag = s.lag ∧
      (gameLoop upd s t now).startTime = s.startTime ∧
      (gameLoop upd s t now).tick = s.tick ∧
      (gameLoop upd s t now).draws
        = s.draws ++ [(1, if s.interpolate then
            interpForest s.properties 1 (upd s.stage) else upd s.stage)] ∧
      stripForest (if s.interpolate then
          interpForest s.properties 1 (upd s.stage) else upd s.stage)
        = stripForest (upd s.stage) := by
  have he := gameLoop_no_fps upd s t now hp hf
  refine ⟨he, ?_, ?_, ?_, ?_, ?_, ?_⟩
  · rw [he, renderApply_updateCount]
  · rw [he, renderApply_lag]
  · rw [he, renderApply_startTime]
  · rw [he, renderApply_tick]
  · rw [he, renderApply_draws]
  · cases hi : s.interpolate
    · simp [hi]
    · simp [hi, stripForest_interp_one]

theorem smoothie_C7_witness :
    (noFpsState.paused = false ∧ noFpsState.fps = none) ∧
      (gameLoop id noFpsState 0 0
          = renderApply { noFpsState with
                          stage := id noFpsState.stage,
                          updateCount := noFpsState.updateCount + 1 } ∧
        (gameLoop id noFpsState 0 0).updateCount
          = noFpsState.updateCount + 1 ∧
        (gameLoop id noFpsState 0 0).lag = noFpsState.lag ∧
        (gameLoop id noFpsState 0 0).startTime = noFpsState.startTime ∧
        (gameLoop id noFpsState 0 0).tick = noFpsState.tick ∧
        (gameLoop id noFpsState 0 0).draws
          = noFpsState.draws ++ [(1, if noFpsState.interpolate then
              interpForest noFpsState.properties 1 (id noFpsState.stage)
            else id noFpsState.stage)] ∧
        stripForest (if noFpsState.interpolate then
            interpForest noFpsState.properties 1 (id noFpsState.stage)
          else id noFpsState.stage)
          = stripForest (id noFpsState.stage)) :=
  ⟨⟨rfl, rfl⟩, smoothie_C7 id noFpsState 0 0 rfl rfl⟩

/-- Claim C8 counterexample: options missing only the rendering `engine`
option, with the renderer, the scene root and the update callback all
supplied, still make construction throw, so "error iff the renderer, the
root or the update callback is absent" fails as stated. -/
theorem smoothie_C8_cex :
    ¬ (constructOk cexOptions 0 = true ↔
        (cexOptions.renderer ≠ none ∧ cexOptions.root ≠ none ∧
          cexOptions.update ≠ none)) := by
  simp [constructOk, construct, cexOptions]

/-- Claim C8 (amended): construction throws an error if and only if one of
the four required options — the rendering engine, the renderer object, the
scene-tree root or the update callback — is absent; when all four are
supplied construction succeeds without error. -/
theorem smoothie_C8_amended (o : SmoothieOptions) (now : ℚ) :
    constructOk o now = true ↔
      (o.engine ≠ none ∧ o.renderer ≠ none ∧ o.root ≠ none ∧
        o.update ≠ none) := by
  rcases he : o.engine with _ | e <;> rcases hr : o.renderer with _ | r <;>
    rcases hro : o.root with _ | ro <;> rcases hu : o.update with _ | u <;>
    simp [constructOk, construct, he, hr, hro, hu]

/-- Claim C9: while the paused flag is set a scheduled invocation leaves the
entire scheduler state unchanged (no update call, no draw, no clock-field
change), and `pause` and `resume` modify only the paused flag — in
particular `resume` does not reset the last-update timestamp. -/
theorem smoothie_C9 (upd : SpriteForest → SpriteForest) (s : Smoothie)
    (t now : ℚ) (hp : s.paused = true) :
    gameLoop upd s t now = s ∧
      Smoothie.pause s = { s with paused := true } ∧
      Smoothie.resume s = { s with paused := false } :=
  ⟨gameLoop_paused upd s t now hp, rfl, rfl⟩

theorem smoothie_C9_witness :
    pausedState.paused = true ∧
      (gameLoop id pausedState 0 0 = pausedState ∧
        Smoothie.pause pausedState = { pausedState with paused := true } ∧
        Smoothie.resume pausedState = { pausedState with paused := false }) :=
  ⟨rfl, smoothie_C9 id pausedState 0 0 rfl⟩

theorem gameLoop_due_obs (upd : SpriteForest → SpriteForest) (s : Smoothie)
    (t now : ℚ) {x rd : ℚ} (hp : s.paused = false) (hf : s.fps = some x)
    (hrf : s.renderFps ≠ none) (hrd : s.renderDuration = some rd)
    (ht : s.renderStartTime ≤ t) :
    (gameLoop upd s t now).paused = false ∧
      (gameLoop upd s t now).fps = some x ∧
      (gameLoop upd s t now).renderFps = s.renderFps ∧
      (gameLoop upd s t now).renderDuration = some rd ∧
      (gameLoop upd s t now).renderStartTime = t + rd ∧
      (gameLoop upd s t now).draws.length = s.draws.length + 1 := by
  rw [gameLoop_render_due upd s t now hp hf hrf hrd ht]
  refine ⟨?_, ?_, ?_, ?_, rfl, ?_⟩
  · show (doInterpolate upd s now).paused = false
    rw [doInterpolate_paused, hp]
  · show (doInterpolate upd s now).fps = some x
    rw [doInterpolate_fps, hf]
  · show (doInterpolate upd s now).renderFps = s.renderFps
    rw [doInterpolate_renderFps]
  · show (doInterpolate upd s now).renderDuration = some rd
    rw [doInterpolate_renderDuration, hrd]
  · show (doInterpolate upd s now).draws.length = s.draws.length + 1
    rw [doInterpolate_draws_length]

theorem capScenario :
    (runLoop id capState [(0, 0)]).draws.length = 1 ∧
      (runLoop id capState [(0, 0), (50/3, 50/3)]).draws.length = 1 ∧
      (runLoop id capState
          [(0, 0), (50/3, 50/3), (100/3, 100/3)]).draws.length = 2 ∧
      (runLoop id capState
          [(0, 0), (50/3, 50/3), (100/3, 100/3), (50, 50)]).draws.length = 2 ∧
      (runLoop id capState
          [(0, 0), (50/3, 50/3), (100/3, 100/3), (50, 50),
            (200/3, 200/3)]).draws.length = 3 ∧
      (runLoop id capState capNotifs).draws.length = 3 := by
  have hcrf : capState.renderFps ≠ none := by simp [capState]
  obtain ⟨p1, f1, rf1, rd1, rst1, dl1⟩ :=
    gameLoop_due_obs id capState 0 0 rfl (rfl : capState.fps = some 60) hcrf
      (rfl : capState.renderDuration = some (100/3))
      (by norm_num [capState])
  have rf1n : capS1.renderFps ≠ none := by
    show (gameLoop id capState 0 0).renderFps ≠ none
    rw [rf1]; exact hcrf
  have rd1n : capS1.renderDuration ≠ none := by
    show (gameLoop id capState 0 0).renderDuration ≠ none
    rw [rd1]; simp
  have dl1c : capS1.draws.length = 1 := by
    show (gameLoop id capState 0 0).draws.length = 1
    rw [dl1]; rfl
  have e2 : gameLoop id capS1 (50/3) (50/3) = capS1 :=
    gameLoop_render_skip id capS1 (50/3) (50/3) p1 f1 rf1n rd1n
      (by show ¬ (gameLoop id capState 0 0).renderStartTime ≤ 50/3
          rw [rst1]; norm_num)
  obtain ⟨p3, f3, rf3, rd3, rst3, dl3⟩ :=
    gameLoop_due_obs id capS1 (100/3) (100/3) p1 f1 rf1n rd1
      (by show (gameLoop id capState 0 0).renderStartTime ≤ 100/3
          rw [rst1]; norm_num)
  have e3 : gameLoop id capS1 (100/3) (100/3) = capS3 := rfl
  have rf3n : capS3.renderFps ≠ none := by
    show (gameLoop id capS1 (100/3) (100/3)).renderFps ≠ none
    rw [rf3]; exact rf1n
  have rd3n : capS3.renderDuration ≠ none := by
    show (gameLoop id capS1 (100/3) (100/3)).renderDuration ≠ none
    rw [rd3]; simp
  have dl3c : capS3.draws.length = 2 := by
    show (gameLoop id capS1 (100/3) (100/3)).draws.length = 2
    rw [dl3, dl1c]
  have p3c : capS3.paused = false := p3
  have f3c : capS3.fps = some 60 := f3
  have rd3c : capS3.renderDuration = some (100/3) := rd3
  have e4 : gameLoop id capS3 50 50 = capS3 :=
    gameLoop_render_skip id capS3 50 50 p3c f3c rf3n rd3n
      (by show ¬ (gameLoop id capS1 (100/3) (100/3)).renderStartTime ≤ 50
          rw [rst3]; norm_num)
  obtain ⟨p5, f5, rf5, rd5, rst5, dl5⟩ :=
    gameLoop_due_obs id capS3 (200/3) (200/3) p3c f3c rf3n rd3c
      (by show (gameLoop id capS1 (100/3) (100/3)).renderStartTime ≤ 200/3
          rw [rst3]; norm_num)
  have e5 : gameLoop id capS3 (200/3) (200/3) = capS5 := rfl
  have rf5n : capS5.renderFps ≠ none := by
    show (gameLoop id capS3 (200/3) (200/3)).renderFps ≠ none
    rw [rf5]; exact rf3n
  have rd5n : capS5.renderDuration ≠ none := by
    show (gameLoop id capS3 (200/3) (200/3)).renderDuration ≠ none
    rw [rd5]; simp
  have dl5c : capS5.draws.length = 3 := by
    show (gameLoop id capS3 (200/3) (200/3)).draws.length = 3
    rw [dl5, dl3c]
  have p5c : capS5.paused = false := p5
  have f5c : capS5.fps = some 60 := f5
  have e6 : gameLoop id capS5 (250/3) (250/3) = capS5 :=
    gameLoop_render_skip id capS5 (250/3) (250/3) p5c f5c rf5n rd5n
      (by show ¬ (gameLoop id capS3 (200/3) (200/3)).renderStartTime ≤ 250/3
          rw [rst5]; norm_num)
  refine ⟨?_, ?_, ?_, ?_, ?_, ?_⟩
  · show capS1.draws.length = 1
    exact dl1c
  · show (gameLoop id capS1 (50/3) (50/3)).draws.length = 1
    rw [e2]; exact dl1c
  · show (gameLoop id (gameLoop id capS1 (50/3) (50/3))
      (100/3) (100/3)).draws.length = 2
    rw [e2, e3]; exact dl3c
  · show (gameLoop id (gameLoop id (gameLoop id capS1 (50/3) (50/3))
      (100/3) (100/3)) 50 50).draws.length = 2
    rw [e2, e3, e4]; exact dl3c
  · show (gameLoop id (gameLoop id (gameLoop id (gameLoop id capS1
      (50/3) (50/3)) (100/3) (100/3)) 50 50) (200/3) (200/3)).draws.length = 3
    rw [e2, e3, e4, e5]; exact dl5c
  · show (gameLoop id (gameLoop id (gameLoop id (gameLoop id (gameLoop id
      capS1 (50/3) (50/3)) (100/3) (100/3)) 50 50) (200/3) (200/3))
      (250/3) (250/3)).draws.length = 3
    rw [e2, e3, e4, e5, e6]; exact dl5c

/-- Claim C6: with a render-rate cap configured and the scheduler not
paused, a scheduled invocation performs drain-and-render exactly when its
timestamp has reached the scheduled next-render time — on draining, the
next-render time becomes the timestamp plus the render-tick duration, and
otherwise the invocation leaves the whole state untouched; consequently with
a 30/s render cap, a 60/s logic rate and notifications at 60/s (the
`capState`/`capNotifs` scenario), the draw count grows on only every other
notification. -/
theorem smoothie_C6 (upd : SpriteForest → SpriteForest) (s : Smoothie)
    (t now : ℚ) {x rd : ℚ} (hp : s.paused = false) (hf : s.fps = some x)
    (hrf : s.renderFps ≠ none) (hrd : s.renderDuration = some rd) :
    (s.renderStartTime ≤ t →
        gameLoop upd s t now
          = { doInterpolate upd s now with renderStartTime := t + rd }) ∧
      (¬ s.renderStartTime ≤ t → gameLoop upd s t now = s) ∧
      ((runLoop id capState [(0, 0)]).draws.length = 1 ∧
        (runLoop id capState [(0, 0), (50/3, 50/3)]).draws.length = 1 ∧
        (runLoop id capState
            [(0, 0), (50/3, 50/3), (100/3, 100/3)]).draws.length = 2 ∧
        (runLoop id capState
            [(0, 0), (50/3, 50/3), (100/3, 100/3), (50, 50)]).draws.length = 2 ∧
        (runLoop id capState
            [(0, 0), (50/3, 50/3), (100/3, 100/3), (50, 50),
              (200/3, 200/3)]).draws.length = 3 ∧
        (runLoop id capState capNotifs).draws.length = 3) :=
  ⟨fun ht => gameLoop_render_due upd s t now hp hf hrf hrd ht,
    fun ht => gameLoop_render_skip upd s t now hp hf hrf
      (by rw [hrd]; simp) ht,
    capScenario⟩

theorem smoothie_C6_witness :
    (capState.paused = false ∧ capState.fps = some 60 ∧
        capState.renderFps ≠ none ∧ capState.renderDuration = some (100/3) ∧
        capState.renderStartTime ≤ 0) ∧
      gameLoop id capState 0 0
        = { doInterpolate id capState 0 with
            renderStartTime := 0 + 100/3 } := by
  have hrf : capState.renderFps ≠ none := by simp [capState]
  have hle : capState.renderStartTime ≤ 0 := by norm_num [capState]
  exact ⟨⟨rfl, rfl, hrf, rfl, hle⟩,
    (smoothie_C6 id capState 0 0 rfl rfl hrf rfl).1 hle⟩

theorem prevNone_gameLoop (upd : SpriteForest → SpriteForest) (s : Smoothie)
    (t now : ℚ) (hf : s.fps = none)
    (hupd : ∀ f, prevNoneForest f = true → prevNoneForest (upd f) = true)
    (hprev : prevNoneForest s.stage = true) :
    prevNoneForest (gameLoop upd s t now).stage = true ∧
      (gameLoop upd s t now).fps = none := by
  cases hp : s.paused
  · rw [gameLoop_no_fps upd s t now hp hf]
    constructor
    · rw [renderApply_stage]
      dsimp only
      by_cases hi : s.interpolate = true
      · rw [if_pos hi, prevNoneForest_restore, prevNoneForest_interp]
        exact hupd _ hprev
      · rw [if_neg hi]
        exact hupd _ hprev
    · rw [renderApply_fps]
      exact hf
  · rw [gameLoop_paused upd s t now hp]
    exact ⟨hprev, hf⟩

theorem prevNone_runLoop (upd : SpriteForest → SpriteForest)
    (hupd : ∀ f, prevNoneForest f = true → prevNoneForest (upd f) = true) :
    ∀ (ns : List (ℚ × ℚ)) (s : Smoothie), s.fps = none →
      prevNoneForest s.stage = true →
      prevNoneForest (runLoop upd s ns).stage = true
  | [], _, _, hprev => hprev
  | (t, n) :: rest, s, hf, hprev => by
      have h := prevNone_gameLoop upd s t n hf hupd hprev
      exact prevNone_runLoop upd hupd rest (gameLoop upd s t n) h.2 h.1

/-- Claim C10: if no logic rate is ever configured, the previous-snapshot
capture never runs, so across any run of scheduled invocations every node's
previous shadow slots stay undefined (given that the update callback, which
only touches live values, preserves that); consequently the interpolation
pass of any render call on any reachable stage leaves every node's live
attribute values unchanged, for every configuration and every fraction, even
with interpolation enabled. -/
theorem smoothie_C10 (upd : SpriteForest → SpriteForest) (s : Smoothie)
    (ns : List (ℚ × ℚ)) (hf : s.fps = none)
    (hupd : ∀ f, prevNoneForest f = true → prevNoneForest (upd f) = true)
    (hprev : prevNoneForest s.stage = true) :
    prevNoneForest (runLoop upd s ns).stage = true ∧
      ∀ (q : SmoothieProperties) (tick : ℚ),
        stripForest (interpForest q tick (runLoop upd s ns).stage)
          = stripForest (runLoop upd s ns).stage := by
  have h := prevNone_runLoop upd hupd ns s hf hprev
  exact ⟨h, fun q tick => stripForest_interp_of_prevNone q tick _ h⟩

theorem smoothie_C10_witness :
    (noFpsState.fps = none ∧ prevNoneForest noFpsState.stage = true) ∧
      (prevNoneForest (runLoop id noFpsState [(0, 0)]).stage = true ∧
        ∀ (q : SmoothieProperties) (tick : ℚ),
          stripForest (interpForest q tick
              (runLoop id noFpsState [(0, 0)]).stage)
            = stripForest (runLoop id noFpsState [(0, 0)]).stage) :=
  ⟨⟨rfl, rfl⟩, smoothie_C10 id noFpsState [(0, 0)] rfl (fun _ h => h) rfl⟩
